import Mathlib

/-!
Shallow embedding of `src/diesel/src/pg/connection/stmt/mod.rs`: the
PostgreSQL prepared-statement layer (`Statement::prepare` and
`Statement::execute`).

Modelling conventions:
* Byte buffers (`Vec<u8>`) are `List Nat`; a raw parameter pointer is
  `Option (List Nat)` (`none` models the null pointer, `some b` a pointer to
  the bytes `b`).
* `libc::c_int` values are `Int`; `usize -> c_int` conversion via `try_into`
  is `tryIntoCInt`, failing when the value exceeds `i32::MAX`.
* `CString::new` is `cstringNew`: it fails with `PgError.invalidCString`
  exactly when the string contains an embedded NUL character (byte 0 occurs
  in UTF-8 iff the character U+0000 occurs).
* The native libpq layer is an oracle `RawConnection` that fixes the outcome
  of each primitive; the embedding of `prepare`/`execute` returns the list of
  native calls actually issued (in order) together with the outcome, so that
  "no native call is attempted" is the trace being `[]`.
* The `.expect("Is never none")` panic in `execute` is the distinguished
  outcome `ExecOutcome.panicked`.
-/

namespace DieselPgStmt

instance instDecEqExcept {ε α : Type} [DecidableEq ε] [DecidableEq α] :
    DecidableEq (Except ε α) := fun x y =>
  match x, y with
  | .ok a, .ok b =>
    if h : a = b then .isTrue (by rw [h]) else .isFalse (by simp [h])
  | .error a, .error b =>
    if h : a = b then .isTrue (by rw [h]) else .isFalse (by simp [h])
  | .ok _, .error _ => .isFalse (by simp)
  | .error _, .ok _ => .isFalse (by simp)

/-- Error taxonomy of `crate::result::Error` restricted to the variants this
module produces: `InvalidCString` (a `NulError` from `CString::new`),
`SerializationError`, and the database/transport errors produced by the
native-call layer. -/
inductive PgError
  | invalidCString
  | serializationError
  | databaseError
deriving DecidableEq, Repr

/-- A `PgResult` handle; the payload is irrelevant to this module, an id keeps
distinct handles distinguishable. -/
structure PgResult where
  id : Nat
deriving DecidableEq, Repr

/-- The `Statement` struct: it stores only the server-side name and the
per-parameter format markers — note that it stores no SQL text. -/
structure Statement where
  name : String
  param_formats : List Int
deriving DecidableEq, Repr

/-- One native (libpq) call as issued by this module, with the arguments that
cross the FFI boundary. -/
inductive NativeCall
  | sendQueryParams (query : Statement) (paramCount : Int)
      (paramValues : List (Option (List Nat))) (paramLengths : List Int)
      (paramFormats : List Int) (resultFormat : Int)
  | sendQueryPrepared (stmtName : String) (paramCount : Int)
      (paramValues : List (Option (List Nat))) (paramLengths : List Int)
      (paramFormats : List Int) (resultFormat : Int)
  | enableRowByRowMode
  | getNextResult
  | pqPrepare (stmtName : String) (sql : String) (paramCount : Int)
      (paramTypes : List Nat)
deriving DecidableEq, Repr

/-- Oracle fixing the outcome of each `RawConnection` primitive.
`sendQueryParamsOk` is recorded for completeness but never consulted: the
source's `if self.name.to_bytes().is_empty() { raw_connection.send_query_params(..) }`
has no `else`, so the value of the unnamed-dispatch call is discarded.
`getNextResultOutcome`: `none` models `Err(_)`, `some none` models `Ok(None)`,
`some (some r)` models `Ok(Some r)`. `prepareOutcome` combines the native
prepare call and the `PgResult::new` status validation: `none` is failure. -/
structure RawConnection where
  sendQueryParamsOk : Bool
  sendQueryPreparedOk : Bool
  enableRowByRowOk : Bool
  getNextResultOutcome : Option (Option PgResult)
  prepareOutcome : Option PgResult
deriving Repr

/-- Outcome of `Statement::execute`: a result handle, a typed error, or the
`.expect("Is never none")` panic. -/
inductive ExecOutcome
  | ok (r : PgResult)
  | error (e : PgError)
  | panicked
deriving DecidableEq, Repr

/-- `i32::MAX`, the largest value representable in `libc::c_int`. -/
def cIntMax : Nat := 2147483647

/-- `usize::try_into::<c_int>()`: succeeds iff the value fits in `c_int`. -/
def tryIntoCInt (n : Nat) : Option Int :=
  if n ≤ cIntMax then some (Int.ofNat n) else none

/-- Whether a Rust string contains an embedded NUL byte (in UTF-8, byte 0
occurs exactly when the character U+0000 occurs). -/
def containsNulByte (s : String) : Bool :=
  s.toList.contains (Char.ofNat 0)

/-- `CString::new`: rejects strings with embedded NUL bytes, otherwise keeps
the contents unchanged. -/
def cstringNew (s : String) : Except PgError String :=
  if containsNulByte s then .error .invalidCString else .ok s

/-- The ASCII character of a decimal digit. -/
def digitChar (d : Nat) : Char := Char.ofNat (48 + d)

/-- Decimal rendering of a natural number, most significant digit first:
models Rust's `Display` formatting of the statement-cache counter inside
`format!("__diesel_stmt_{counter}")`. -/
def natDecimal (n : Nat) : String :=
  if n = 0 then "0"
  else String.mk (((Nat.digits 10 n).map digitChar).reverse)

/-- `PgTypeMetadata`: `oid()` returns `Result<u32, FailedToLookupTypeError>`;
`none` models a failed type-metadata lookup. -/
structure PgTypeMetadata where
  oid : Option Nat
deriving DecidableEq, Repr

/-- `PrepareForCache`: the statement cache's directive, `Yes { counter }` or
`No`. -/
inductive PrepareForCache
  | yes (counter : Nat)
  | no
deriving DecidableEq, Repr

/-- The `query_name` match at the top of `Statement::prepare`. -/
def queryName (is_cached : PrepareForCache) : Option String :=
  match is_cached with
  | .yes counter => some ("__diesel_stmt_" ++ natDecimal counter)
  | .no => none

/-- Models `self.into_sql()` in `Statement::execute`: the first argument of
the unnamed `send_query_params` dispatch is computed from the `Statement`
value alone — the struct stores only `name` and `param_formats`, no SQL text —
so the embedding records the statement the argument is derived from. -/
def Statement.into_sql (s : Statement) : Statement := s

/-- The `params_pointer` array of `Statement::execute`:
`data.as_ref().map(|d| d.as_ptr()).unwrap_or(ptr::null())` for each entry. -/
def params_pointer (param_data : List (Option (List Nat))) :
    List (Option (List Nat)) :=
  param_data.map (fun data => data.map (fun d => d))

/-- The `param_lengths` computation of `Statement::execute`:
`data.as_ref().map(|d| d.len().try_into()).unwrap_or(Ok(0))`, collected with
short-circuiting (`collect::<Result<Vec<_>, _>>()`). -/
def param_lengths : List (Option (List Nat)) → Option (List Int)
  | [] => some []
  | data :: rest =>
    match (data.map (fun d => tryIntoCInt d.length)).getD (some 0),
        param_lengths rest with
    | some n, some ns => some (n :: ns)
    | _, _ => none

/-- `Ok(raw_connection.get_next_result()?.expect("Is never none"))`: the final
result fetch of `Statement::execute`. -/
def fetchResult (raw_connection : RawConnection) (trace : List NativeCall) :
    List NativeCall × ExecOutcome :=
  match raw_connection.getNextResultOutcome with
  | none => (trace ++ [NativeCall.getNextResult], .error .databaseError)
  | some none => (trace ++ [NativeCall.getNextResult], .panicked)
  | some (some r) => (trace ++ [NativeCall.getNextResult], .ok r)

/-- `Statement::execute`. Mirrors the source order: build `params_pointer`,
then `param_lengths` (serialization error on length overflow), then
`param_count` (serialization error on count overflow), then dispatch.
The dispatch mirrors the source's control flow literally: the unnamed
(`send_query_params`) call is issued when the name is empty, and — because the
`if` has no `else` — control falls through so the named
(`send_query_prepared`) call is issued unconditionally; the `?` operator
checks the named call's status. Then the optional row-by-row switch, then the
result fetch. -/
def Statement.execute (s : Statement) (raw_connection : RawConnection)
    (param_data : List (Option (List Nat))) (row_by_row : Bool) :
    List NativeCall × ExecOutcome :=
  match param_lengths param_data with
  | none => ([], .error .serializationError)
  | some lens =>
    match tryIntoCInt (params_pointer param_data).length with
    | none => ([], .error .serializationError)
    | some param_count =>
      let dispatch : List NativeCall :=
        (if s.name = "" then
          [NativeCall.sendQueryParams s.into_sql param_count
            (params_pointer param_data) lens s.param_formats 1]
        else []) ++
        [NativeCall.sendQueryPrepared s.name param_count
          (params_pointer param_data) lens s.param_formats 1]
      if raw_connection.sendQueryPreparedOk then
        if row_by_row then
          if raw_connection.enableRowByRowOk then
            fetchResult raw_connection
              (dispatch ++ [NativeCall.enableRowByRowMode])
          else (dispatch ++ [NativeCall.enableRowByRowMode],
            .error .databaseError)
        else fetchResult raw_connection dispatch
      else (dispatch, .error .databaseError)

/-- The oid-collection step of `Statement::prepare`:
`param_types.iter().map(|x| x.oid()).collect::<Result<Vec<_>, _>>()`. -/
def collectOids : List PgTypeMetadata → Option (List Nat)
  | [] => some []
  | x :: rest =>
    match x.oid, collectOids rest with
    | some o, some os => some (o :: os)
    | _, _ => none

/-- `Statement::prepare`. Mirrors the source order: synthesize the name from
the cache directive, convert name then SQL to C strings (NUL rejection),
collect the parameter type oids (serialization error on lookup failure),
convert the parameter count (serialization error on overflow), issue the
native prepare call and validate its result, and finally build the
`Statement` with `param_formats = vec![1; param_types.len()]`. -/
def Statement.prepare (raw_connection : RawConnection) (sql : String)
    (is_cached : PrepareForCache) (param_types : List PgTypeMetadata) :
    List NativeCall × Except PgError Statement :=
  match cstringNew ((queryName is_cached).getD "") with
  | .error e => ([], .error e)
  | .ok name =>
    match cstringNew sql with
    | .error e => ([], .error e)
    | .ok sqlC =>
      match collectOids param_types with
      | none => ([], .error .serializationError)
      | some param_types_vec =>
        match tryIntoCInt param_types.length with
        | none => ([], .error .serializationError)
        | some param_count =>
          let trace := [NativeCall.pqPrepare name sqlC param_count
            param_types_vec]
          match raw_connection.prepareOutcome with
          | none => (trace, .error .databaseError)
          | some _r =>
            (trace, .ok { name := name
                          param_formats := List.replicate param_types.length 1 })

/-- The length the source's `param_lengths` computation assigns to one
parameter when no overflow occurs: 0 for an absent value, the byte length for
a present one. -/
def paramLengthOf : Option (List Nat) → Int
  | none => 0
  | some b => Int.ofNat b.length

/-- A result handle used by the concrete connection oracles below. -/
def r0 : PgResult := ⟨0⟩

/-- A connection oracle on which every native primitive succeeds. -/
def connOk : RawConnection :=
  ⟨true, true, true, some (some r0), some r0⟩

/-- A connection oracle whose dispatch succeeds but whose result fetch
returns `Ok(None)`. -/
def connNoResult : RawConnection :=
  ⟨true, true, true, some none, some r0⟩

/-! Helper lemmas about the embedded primitives. -/

theorem cstringNew_ok {s t : String} (h : cstringNew s = .ok t) : t = s := by
  unfold cstringNew at h
  split at h <;> simp_all

theorem cstringNew_of_not_nul {s : String} (h : containsNulByte s = false) :
    cstringNew s = .ok s := by
  simp [cstringNew, h]

theorem digitChar_ne_nul {d : Nat} (h : d < 10) : digitChar d ≠ Char.ofNat 0 := by
  interval_cases d <;> decide

theorem digitChar_inj {a b : Nat} (ha : a < 10) (hb : b < 10)
    (h : digitChar a = digitChar b) : a = b := by
  interval_cases a <;> interval_cases b <;> revert h <;> decide

theorem natDecimal_ne_zero_data {n : Nat} (hn : n ≠ 0) :
    (natDecimal n).data = ((Nat.digits 10 n).map digitChar).reverse := by
  simp [natDecimal, hn]

theorem natDecimal_mem_digit {n : Nat} {c : Char}
    (h : c ∈ (natDecimal n).data) : ∃ d, d < 10 ∧ c = digitChar d := by
  by_cases hn : n = 0
  · subst hn
    refine ⟨0, by norm_num, ?_⟩
    have : (natDecimal 0).data = [digitChar 0] := by decide
    rw [this] at h
    simpa using h
  · rw [natDecimal_ne_zero_data hn] at h
    rw [List.mem_reverse] at h
    obtain ⟨d, hd, rfl⟩ := List.mem_map.1 h
    exact ⟨d, Nat.digits_lt_base (by norm_num) hd, rfl⟩

theorem containsNulByte_eq_false {s : String}
    (h : Char.ofNat 0 ∉ s.data) : containsNulByte s = false := by
  unfold containsNulByte String.toList
  simpa using h

theorem containsNulByte_name (c : Nat) :
    containsNulByte ("__diesel_stmt_" ++ natDecimal c) = false := by
  apply containsNulByte_eq_false
  intro hmem
  rw [String.data_append] at hmem
  rcases List.mem_append.1 hmem with h | h
  · revert h; decide
  · obtain ⟨d, hd, hc⟩ := natDecimal_mem_digit h
    exact digitChar_ne_nul hd hc.symm

theorem map_digitChar_inj : ∀ {l1 l2 : List Nat},
    (∀ d ∈ l1, d < 10) → (∀ d ∈ l2, d < 10) →
    l1.map digitChar = l2.map digitChar → l1 = l2 := by
  intro l1
  induction l1 with
  | nil => intro l2 _ _ h; cases l2 <;> simp_all
  | cons a t ih =>
    intro l2 h1 h2 h
    cases l2 with
    | nil => simp_all
    | cons b t2 =>
      simp only [List.map_cons, List.cons.injEq] at h
      have hab : a = b := digitChar_inj (h1 a (by simp)) (h2 b (by simp)) h.1
      have ht : t = t2 := ih (fun d hd => h1 d (by simp [hd]))
        (fun d hd => h2 d (by simp [hd])) h.2
      rw [hab, ht]

theorem natDecimal_zero_iff {n : Nat} (h : natDecimal n = natDecimal 0) :
    n = 0 := by
  by_contra hn
  have hd := congrArg String.data h
  rw [natDecimal_ne_zero_data hn] at hd
  have hd0 : (natDecimal 0).data = [digitChar 0] := by decide
  rw [hd0] at hd
  have hmap : (Nat.digits 10 n).map digitChar = [digitChar 0] := by
    have := congrArg List.reverse hd
    simpa using this
  rcases hdig : Nat.digits 10 n with _ | ⟨d, rest⟩
  · rw [hdig] at hmap; simp at hmap
  · rw [hdig] at hmap
    simp only [List.map_cons, List.cons.injEq] at hmap
    have hrest : rest = [] := by
      have := hmap.2
      cases rest <;> simp_all
    have hd10 : d < 10 :=
      Nat.digits_lt_base (by norm_num) (by rw [hdig]; simp)
    have hd0' : d = 0 := digitChar_inj hd10 (by norm_num) hmap.1
    subst hd0'; subst hrest
    have hof := Nat.ofDigits_digits 10 n
    rw [hdig] at hof
    simp [Nat.ofDigits] at hof
    exact hn hof.symm

theorem natDecimal_inj {m n : Nat} (h : natDecimal m = natDecimal n) :
    m = n := by
  by_cases hm : m = 0
  · subst hm; exact (natDecimal_zero_iff h.symm).symm
  by_cases hn : n = 0
  · subst hn; exact natDecimal_zero_iff h
  have hd := congrArg String.data h
  rw [natDecimal_ne_zero_data hm, natDecimal_ne_zero_data hn] at hd
  have hmap := List.reverse_injective hd
  have hdig := map_digitChar_inj
    (fun d hd => Nat.digits_lt_base (by norm_num) hd)
    (fun d hd => Nat.digits_lt_base (by norm_num) hd) hmap
  exact Nat.digits_inj_iff.1 hdig

theorem stmtName_inj {c₁ c₂ : Nat}
    (h : "__diesel_stmt_" ++ natDecimal c₁ = "__diesel_stmt_" ++ natDecimal c₂) :
    c₁ = c₂ := by
  have hd := congrArg String.data h
  rw [String.data_append, String.data_append] at hd
  exact natDecimal_inj (String.ext (List.append_cancel_left hd))

theorem tryIntoCInt_of_le {n : Nat} (h : n ≤ cIntMax) :
    tryIntoCInt n = some (Int.ofNat n) := by simp [tryIntoCInt, h]

theorem tryIntoCInt_none {n : Nat} (h : tryIntoCInt n = none) : cIntMax < n := by
  by_contra hc
  simp [tryIntoCInt, Nat.le_of_not_lt hc] at h

theorem params_pointer_eq (pd : List (Option (List Nat))) :
    params_pointer pd = pd := by
  unfold params_pointer
  induction pd with
  | nil => rfl
  | cons d rest ih => cases d <;> simp_all [params_pointer]

theorem param_lengths_of_fit : ∀ {pd : List (Option (List Nat))},
    (∀ b : List Nat, some b ∈ pd → b.length ≤ cIntMax) →
    param_lengths pd = some (pd.map paramLengthOf) := by
  intro pd
  induction pd with
  | nil => intro _; rfl
  | cons d rest ih =>
    intro h
    have hrest := ih (fun b hb => h b (List.mem_cons_of_mem _ hb))
    cases d with
    | none => simp [param_lengths, hrest, paramLengthOf]
    | some b =>
      have hb := h b (by simp)
      simp [param_lengths, hrest, paramLengthOf, tryIntoCInt, hb]

theorem param_lengths_none : ∀ {pd : List (Option (List Nat))},
    param_lengths pd = none →
    ∃ b : List Nat, some b ∈ pd ∧ cIntMax < b.length := by
  intro pd
  induction pd with
  | nil => intro h; simp [param_lengths] at h
  | cons d rest ih =>
    intro h
    cases d with
    | none =>
      rcases hr : param_lengths rest with _ | ns
      · obtain ⟨b, hb, hlen⟩ := ih hr
        exact ⟨b, List.mem_cons_of_mem _ hb, hlen⟩
      · rw [param_lengths, hr] at h; simp at h
    | some b =>
      by_cases hb : b.length ≤ cIntMax
      · rcases hr : param_lengths rest with _ | ns
        · obtain ⟨b', hb', hlen⟩ := ih hr
          exact ⟨b', List.mem_cons_of_mem _ hb', hlen⟩
        · rw [param_lengths, hr] at h
          simp [tryIntoCInt, hb] at h
      · exact ⟨b, by simp, by omega⟩

theorem fetchResult_fst (conn : RawConnection) (tr : List NativeCall) :
    (fetchResult conn tr).1 = tr ++ [NativeCall.getNextResult] := by
  rcases hg : conn.getNextResultOutcome with _ | mo
  · simp [fetchResult, hg]
  · cases mo <;> simp [fetchResult, hg]

theorem fetchResult_snd (conn : RawConnection) (tr : List NativeCall) :
    (fetchResult conn tr).2 = .error .databaseError ∨
    (∃ r, conn.getNextResultOutcome = some (some r) ∧
      (fetchResult conn tr).2 = .ok r) ∨
    (conn.getNextResultOutcome = some none ∧
      (fetchResult conn tr).2 = .panicked) := by
  rcases hg : conn.getNextResultOutcome with _ | mo
  · left; simp [fetchResult, hg]
  · cases mo
    · right; right; simp [fetchResult, hg]
    · right; left; exact ⟨_, rfl, by simp [fetchResult, hg]⟩

theorem execute_trace_shape {s : Statement} {conn : RawConnection}
    {pd : List (Option (List Nat))} {rbr : Bool} {lens : List Int} {pc : Int}
    (h1 : param_lengths pd = some lens)
    (h2 : tryIntoCInt (params_pointer pd).length = some pc) :
    ∃ rest, (s.execute conn pd rbr).1 =
      ((if s.name = "" then
          [NativeCall.sendQueryParams s.into_sql pc (params_pointer pd) lens
            s.param_formats 1]
        else []) ++
       [NativeCall.sendQueryPrepared s.name pc (params_pointer pd) lens
         s.param_formats 1]) ++ rest := by
  unfold Statement.execute
  rw [h1, h2]
  cases hq : conn.sendQueryPreparedOk
  · exact ⟨[], by simp⟩
  · cases rbr
    · exact ⟨[NativeCall.getNextResult], by simp [fetchResult_fst]⟩
    · cases he : conn.enableRowByRowOk
      · exact ⟨[NativeCall.enableRowByRowMode], by simp⟩
      · exact ⟨[NativeCall.enableRowByRowMode, NativeCall.getNextResult],
          by simp [fetchResult_fst]⟩

theorem execute_dispatch_mem {s : Statement} {conn : RawConnection}
    {pd : List (Option (List Nat))} {rbr : Bool} {lens : List Int} {pc : Int}
    (h1 : param_lengths pd = some lens)
    (h2 : tryIntoCInt (params_pointer pd).length = some pc) :
    NativeCall.sendQueryPrepared s.name pc (params_pointer pd) lens
      s.param_formats 1 ∈ (s.execute conn pd rbr).1 := by
  obtain ⟨rest, hr⟩ := @execute_trace_shape s conn pd rbr lens pc h1 h2
  rw [hr]; simp

theorem execute_snd_cases (s : Statement) (conn : RawConnection)
    (pd : List (Option (List Nat))) (rbr : Bool) :
    (s.execute conn pd rbr).2 = .error .serializationError ∨
    (s.execute conn pd rbr).2 = .error .databaseError ∨
    (∃ r, conn.getNextResultOutcome = some (some r) ∧
      (s.execute conn pd rbr).2 = .ok r) ∨
    (conn.getNextResultOutcome = some none ∧
      (s.execute conn pd rbr).2 = .panicked) := by
  unfold Statement.execute
  rcases hl : param_lengths pd with _ | lens
  · left; rfl
  rcases hc : tryIntoCInt (params_pointer pd).length with _ | pc
  · left; rfl
  cases hq : conn.sendQueryPreparedOk
  · right; left; rfl
  · cases rbr
    · right; exact fetchResult_snd conn _
    · cases he : conn.enableRowByRowOk
      · right; left; rfl
      · right; exact fetchResult_snd conn _

theorem execute_snd_panicked {s : Statement} {conn : RawConnection}
    {pd : List (Option (List Nat))} {rbr : Bool}
    (hfit : ∀ b : List Nat, some b ∈ pd → b.length ≤ cIntMax)
    (hcnt : pd.length ≤ cIntMax)
    (hsend : conn.sendQueryPreparedOk = true)
    (hrow : conn.enableRowByRowOk = true)
    (hg : conn.getNextResultOutcome = some none) :
    (s.execute conn pd rbr).2 = .panicked := by
  unfold Statement.execute
  rw [param_lengths_of_fit hfit, params_pointer_eq, tryIntoCInt_of_le hcnt]
  cases rbr <;> simp [hsend, hrow, fetchResult, hg]

theorem prepare_ok_inv {conn : RawConnection} {sql : String}
    {dir : PrepareForCache} {types : List PgTypeMetadata} {st : Statement}
    (h : (Statement.prepare conn sql dir types).2 = .ok st) :
    st.name = (queryName dir).getD "" ∧
    st.param_formats = List.replicate types.length 1 := by
  unfold Statement.prepare at h
  rcases hname : cstringNew ((queryName dir).getD "") with e | name
  · rw [hname] at h; simp at h
  rw [hname] at h
  rcases hsql : cstringNew sql with e | sqlC
  · rw [hsql] at h; simp at h
  rw [hsql] at h
  rcases hvec : collectOids types with _ | vec
  · rw [hvec] at h; simp at h
  rw [hvec] at h
  rcases hpc : tryIntoCInt types.length with _ | pc
  · rw [hpc] at h; simp at h
  rw [hpc] at h
  rcases hout : conn.prepareOutcome with _ | r
  · rw [hout] at h; simp at h
  rw [hout] at h
  simp only [Except.ok.injEq] at h
  rw [← h]
  exact ⟨cstringNew_ok hname, rfl⟩

theorem param_lengths_none_of_over : ∀ {pd : List (Option (List Nat))}
    {b : List Nat}, some b ∈ pd → cIntMax < b.length →
    param_lengths pd = none := by
  intro pd
  induction pd with
  | nil => intro b hb; simp at hb
  | cons d rest ih =>
    intro b hb hover
    rcases List.mem_cons.1 hb with h | h
    · subst h
      have hnone : tryIntoCInt b.length = none := by
        simp [tryIntoCInt]; omega
      simp [param_lengths, hnone]
    · rw [param_lengths, ih h hover]
      rcases hd2 : (Option.map (fun x => tryIntoCInt x.length) d).getD (some 0)
        with _ | n <;> rw [hd2]

theorem collectOids_none : ∀ {types : List PgTypeMetadata},
    (∃ t ∈ types, t.oid = none) → collectOids types = none := by
  intro types
  induction types with
  | nil => rintro ⟨t, ht, _⟩; simp at ht
  | cons x rest ih =>
    rintro ⟨t, ht, hoid⟩
    rcases List.mem_cons.1 ht with h | h
    · subst h; simp [collectOids, hoid]
    · rw [collectOids, ih ⟨t, h, hoid⟩]
      rcases x.oid with _ | o <;> rfl

theorem queryName_cstring_ok (dir : PrepareForCache) :
    cstringNew ((queryName dir).getD "") = .ok ((queryName dir).getD "") := by
  cases dir with
  | yes c => exact cstringNew_of_not_nul (containsNulByte_name c)
  | no => decide

theorem prepare_yes_connOk (sql : String) (c : Nat)
    (h : containsNulByte sql = false) :
    Statement.prepare connOk sql (.yes c) [] =
      ([NativeCall.pqPrepare ("__diesel_stmt_" ++ natDecimal c) sql 0 []],
       .ok ⟨"__diesel_stmt_" ++ natDecimal c, []⟩) := by
  unfold Statement.prepare
  rw [show queryName (.yes c) = some ("__diesel_stmt_" ++ natDecimal c)
    from rfl]
  rw [show (some ("__diesel_stmt_" ++ natDecimal c)).getD "" =
    "__diesel_stmt_" ++ natDecimal c from rfl]
  rw [cstringNew_of_not_nul (containsNulByte_name c), cstringNew_of_not_nul h]
  rfl

/-! The claims. -/

/-- Claim C1: the spec requires the unnamed and named dispatch branches of
`Statement::execute` to be mutually exclusive — exactly one native dispatch
call per execution. The source's `if self.name.to_bytes().is_empty() { .. }`
has no `else`, so control falls through and an empty-named statement issues
the unnamed `send_query_params` call AND the named `send_query_prepared`
call. This theorem evaluates `execute` on an empty-named statement and
exhibits both dispatch calls in the issued native-call trace, refuting the
claim (the code is the defective side: the spec flags this fallthrough as a
defect, and the source's own comments describe the two calls as
alternatives). -/
theorem execute_unnamed_dispatches_both_calls :
    (Statement.execute ⟨"", []⟩ connOk [] false).1 =
      [.sendQueryParams (Statement.into_sql ⟨"", []⟩) 0 [] [] [] 1,
       .sendQueryPrepared "" 0 [] [] [] 1, .getNextResult] ∧
    NativeCall.sendQueryParams (Statement.into_sql ⟨"", []⟩) 0 [] [] [] 1 ∈
      (Statement.execute ⟨"", []⟩ connOk [] false).1 ∧
    NativeCall.sendQueryPrepared "" 0 [] [] [] 1 ∈
      (Statement.execute ⟨"", []⟩ connOk [] false).1 :=
  ⟨by decide, by decide, by decide⟩

/-- Claim C2: the spec says the unnamed-dispatch path re-transmits the SQL text
given at prepare time. The source's `Statement` struct stores only `name` and
`param_formats` — the SQL is dropped at the end of `prepare` — and the first
argument of the unnamed dispatch is `self.into_sql()`, a value computed from
the `Statement` alone. Hence two prepares with different SQL texts yield
identical `Statement` values, and `execute` (a function of the statement and
the parameters only) issues identical native-call traces for both, so the
prepare-time SQL text cannot be re-transmitted. -/
theorem prepare_discards_sql_text :
    "SELECT 1" ≠ "SELECT 2" ∧
    (Statement.prepare connOk "SELECT 1" .no []).2 =
      (Statement.prepare connOk "SELECT 2" .no []).2 ∧
    (Statement.prepare connOk "SELECT 1" .no []).2 = .ok ⟨"", []⟩ ∧
    (Statement.execute ⟨"", []⟩ connOk [] false).1 =
      [.sendQueryParams (Statement.into_sql ⟨"", []⟩) 0 [] [] [] 1,
       .sendQueryPrepared "" 0 [] [] [] 1, .getNextResult] :=
  ⟨by decide, by decide, by decide, by decide⟩

/-- Claim C3 counterexample: `execute` on a statement whose `param_formats` has
length 1, called with 2 parameter values, neither fails by construction nor
is rejected by validation: the native call is dispatched with parameter count
2 while the format array still has length 1, and the overall outcome is
success. This refutes the claim that such a call "fails deterministically". -/
theorem execute_count_mismatch_not_rejected :
    (Statement.execute ⟨"q", [1]⟩ connOk [none, none] false).2 = .ok r0 ∧
    (Statement.execute ⟨"q", [1]⟩ connOk [none, none] false).1 =
      [.sendQueryPrepared "q" 2 [none, none] [0, 0] [1] 1,
       .getNextResult] ∧
    (2 : Nat) ≠ (Statement.mk "q" [1]).param_formats.length :=
  ⟨by decide, by decide, by decide⟩

/-- Claim C3 amended: `Statement::execute` performs no validation of the supplied
parameter count against `param_formats`: whenever the lengths and the count
fit the native integer width, the named dispatch call is issued carrying
exactly N parameter pointers and N lengths (N = the supplied parameter
count) and the statement's format list unchanged — nothing is truncated or
padded, and a count mismatch is not rejected in this layer. -/
theorem execute_no_count_validation
    (s : Statement) (conn : RawConnection) (pd : List (Option (List Nat)))
    (rbr : Bool)
    (hfit : ∀ b : List Nat, some b ∈ pd → b.length ≤ cIntMax)
    (hcnt : pd.length ≤ cIntMax) :
    NativeCall.sendQueryPrepared s.name (Int.ofNat pd.length)
      (params_pointer pd) (pd.map paramLengthOf) s.param_formats 1 ∈
      (s.execute conn pd rbr).1 ∧
    (params_pointer pd).length = pd.length ∧
    (pd.map paramLengthOf).length = pd.length := by
  have h1 := param_lengths_of_fit hfit
  have h2 : tryIntoCInt (params_pointer pd).length =
      some (Int.ofNat pd.length) := by
    rw [params_pointer_eq]; exact tryIntoCInt_of_le hcnt
  exact ⟨execute_dispatch_mem h1 h2, by rw [params_pointer_eq], by simp⟩

/-- Claim C3 amended, witness: the mismatched call of the counterexample (2
parameters against a 1-entry format list) dispatches with exactly 2 pointers
and 2 lengths and the 1-entry format list unchanged. -/
theorem execute_no_count_validation_witness :
    NativeCall.sendQueryPrepared (Statement.mk "q" [1]).name (Int.ofNat 2)
      (params_pointer [none, none]) ([none, none].map paramLengthOf)
      (Statement.mk "q" [1]).param_formats 1 ∈
      (Statement.execute ⟨"q", [1]⟩ connOk [none, none] false).1 ∧
    (params_pointer [none, none]).length = 2 ∧
    ([none, none].map paramLengthOf).length = 2 :=
  execute_no_count_validation ⟨"q", [1]⟩ connOk [none, none] false
    (by intro b hb; simp at hb) (by decide)

/-- Claim C4 counterexample: a present parameter value containing embedded NUL
bytes (the 4-byte big-endian encoding of 42, whose first three bytes are 0)
does not make `execute` fail with an encoding error: the native call is
issued with the bytes passed through verbatim (binary format with an explicit
length), and the execution succeeds. This refutes the claim that a NUL byte
in a parameter value fails before any native call. -/
theorem execute_nul_param_value_accepted :
    (0 : Nat) ∈ ([0, 0, 0, 42] : List Nat) ∧
    Statement.execute ⟨"q", [1]⟩ connOk [some [0, 0, 0, 42]] false =
      ([.sendQueryPrepared "q" 1 [some [0, 0, 0, 42]] [4] [1] 1,
        .getNextResult], .ok r0) :=
  ⟨by decide, by decide⟩

/-- Claim C4 amended: parameter values are transmitted in binary format with
explicit lengths and are never converted to C strings, so `execute` never
returns an encoding (`InvalidCString`) error, whatever bytes — including
NUL — the parameter values contain. (Only the SQL text and the statement
name are NUL-checked, and that happens in `prepare`.) -/
theorem execute_never_encoding_error (s : Statement) (conn : RawConnection)
    (pd : List (Option (List Nat))) (rbr : Bool) :
    (s.execute conn pd rbr).2 ≠ .error .invalidCString := by
  rcases execute_snd_cases s conn pd rbr with h | h | ⟨r, _, h⟩ | ⟨_, h⟩ <;>
    rw [h] <;> simp

/-- Claim C4 amended, witness: the NUL-containing parameter value of the
counterexample does not produce an encoding error. -/
theorem execute_never_encoding_error_witness :
    (Statement.execute ⟨"q", [1]⟩ connOk [some [0, 0, 0, 42]] false).2 ≠
      .error .invalidCString :=
  execute_never_encoding_error ⟨"q", [1]⟩ connOk [some [0, 0, 0, 42]] false

/-- Claim C5: `prepare` with directive `Uncached` yields a `Statement` with the
empty name; `prepare` with `Cached{counter}` yields the name
`"__diesel_stmt_"` followed by the decimal counter; and two cached prepares
with different counters never produce the same name (decimal rendering is
injective and the fixed prefix cancels). -/
theorem prepare_statement_names :
    (∀ (conn : RawConnection) (sql : String) (types : List PgTypeMetadata)
      (st : Statement), (Statement.prepare conn sql .no types).2 = .ok st →
      st.name = "") ∧
    (∀ (conn : RawConnection) (sql : String) (types : List PgTypeMetadata)
      (c : Nat) (st : Statement),
      (Statement.prepare conn sql (.yes c) types).2 = .ok st →
      st.name = "__diesel_stmt_" ++ natDecimal c) ∧
    (∀ (conn₁ conn₂ : RawConnection) (sql₁ sql₂ : String)
      (types₁ types₂ : List PgTypeMetadata) (c₁ c₂ : Nat)
      (st₁ st₂ : Statement), c₁ ≠ c₂ →
      (Statement.prepare conn₁ sql₁ (.yes c₁) types₁).2 = .ok st₁ →
      (Statement.prepare conn₂ sql₂ (.yes c₂) types₂).2 = .ok st₂ →
      st₁.name ≠ st₂.name) := by
  refine ⟨?_, ?_, ?_⟩
  · intro conn sql types st h
    simpa [queryName] using (prepare_ok_inv h).1
  · intro conn sql types c st h
    simpa [queryName] using (prepare_ok_inv h).1
  · intro conn₁ conn₂ sql₁ sql₂ types₁ types₂ c₁ c₂ st₁ st₂ hne h₁ h₂ heq
    have e₁ := (prepare_ok_inv h₁).1
    have e₂ := (prepare_ok_inv h₂).1
    simp only [queryName, Option.getD_some] at e₁ e₂
    rw [e₁, e₂] at heq
    exact hne (stmtName_inj heq)

/-- Claim C5 witness: concrete prepares with directives `Uncached`, `Cached{0}` and
`Cached{1}` on a successful connection, instantiating all three conjuncts. -/
theorem prepare_statement_names_witness :
    (Statement.mk "" [] : Statement).name = "" ∧
    (Statement.mk ("__diesel_stmt_" ++ natDecimal 0) []).name =
      "__diesel_stmt_" ++ natDecimal 0 ∧
    (Statement.mk ("__diesel_stmt_" ++ natDecimal 0) []).name ≠
      (Statement.mk ("__diesel_stmt_" ++ natDecimal 1) []).name := by
  refine ⟨?_, ?_, ?_⟩
  · exact prepare_statement_names.1 connOk "SELECT 1" [] ⟨"", []⟩ (by decide)
  · exact prepare_statement_names.2.1 connOk "SELECT 1" [] 0
      ⟨"__diesel_stmt_" ++ natDecimal 0, []⟩
      (by rw [prepare_yes_connOk "SELECT 1" 0 (by decide)])
  · exact prepare_statement_names.2.2 connOk connOk "SELECT 1" "SELECT 1"
      [] [] 0 1 ⟨"__diesel_stmt_" ++ natDecimal 0, []⟩
      ⟨"__diesel_stmt_" ++ natDecimal 1, []⟩ (by decide)
      (by rw [prepare_yes_connOk "SELECT 1" 0 (by decide)])
      (by rw [prepare_yes_connOk "SELECT 1" 1 (by decide)])

/-- Claim C6: for a statement prepared with N parameter types and any
parameter-value list of length N (any mix of present and absent values),
`execute` builds and passes exactly N parameter pointers (null exactly for
the absent values), exactly N byte-lengths (0 for absent values, the byte
count for present ones), and exactly N format markers, all binary (1). -/
theorem execute_sends_n_param_arrays
    (conn0 conn : RawConnection) (sql : String) (dir : PrepareForCache)
    (types : List PgTypeMetadata) (st : Statement)
    (pd : List (Option (List Nat))) (rbr : Bool)
    (hprep : (Statement.prepare conn0 sql dir types).2 = .ok st)
    (hN : types.length = pd.length)
    (hfit : ∀ b : List Nat, some b ∈ pd → b.length ≤ cIntMax)
    (hcnt : pd.length ≤ cIntMax) :
    NativeCall.sendQueryPrepared st.name (Int.ofNat pd.length)
      (params_pointer pd) (pd.map paramLengthOf) st.param_formats 1 ∈
      (st.execute conn pd rbr).1 ∧
    (params_pointer pd).length = pd.length ∧
    (pd.map paramLengthOf).length = pd.length ∧
    st.param_formats = List.replicate pd.length 1 ∧
    (∀ i : Nat, pd[i]? = some none →
      (params_pointer pd)[i]? = some none ∧
      (pd.map paramLengthOf)[i]? = some 0) ∧
    (∀ (i : Nat) (b : List Nat), pd[i]? = some (some b) →
      (params_pointer pd)[i]? = some (some b) ∧
      (pd.map paramLengthOf)[i]? = some (Int.ofNat b.length)) := by
  have h1 := param_lengths_of_fit hfit
  have h2 : tryIntoCInt (params_pointer pd).length =
      some (Int.ofNat pd.length) := by
    rw [params_pointer_eq]; exact tryIntoCInt_of_le hcnt
  have hfmt : st.param_formats = List.replicate pd.length 1 := by
    rw [(prepare_ok_inv hprep).2, hN]
  refine ⟨execute_dispatch_mem h1 h2, by rw [params_pointer_eq], by simp,
    hfmt, ?_, ?_⟩
  · intro i hi
    rw [params_pointer_eq]
    refine ⟨hi, ?_⟩
    rw [List.getElem?_map, hi]
    rfl
  · intro i b hi
    rw [params_pointer_eq]
    refine ⟨hi, ?_⟩
    rw [List.getElem?_map, hi]
    rfl

/-- Claim C6 witness: a statement prepared for one `int4` parameter, executed with
the 4-byte value 42: one pointer, one length (4), one binary format marker. -/
theorem execute_sends_n_param_arrays_witness :
    NativeCall.sendQueryPrepared (Statement.mk "" [1]).name (Int.ofNat 1)
      (params_pointer [some [0, 0, 0, 42]])
      ([some [0, 0, 0, 42]].map paramLengthOf)
      (Statement.mk "" [1]).param_formats 1 ∈
      (Statement.execute ⟨"", [1]⟩ connOk [some [0, 0, 0, 42]] false).1 ∧
    (Statement.mk "" [1]).param_formats = List.replicate 1 1 ∧
    (params_pointer [some [0, 0, 0, 42]])[0]? = some (some [0, 0, 0, 42]) ∧
    ([some [0, 0, 0, 42]].map paramLengthOf)[0]? = some (Int.ofNat 4) := by
  have h := execute_sends_n_param_arrays connOk connOk "SELECT $1" .no
    [⟨some 23⟩] ⟨"", [1]⟩ [some [0, 0, 0, 42]] false (by decide) (by decide)
    (by intro b hb; simp at hb; subst hb; decide) (by decide)
  exact ⟨h.1, h.2.2.2.1, (h.2.2.2.2.2 0 [0, 0, 0, 42] rfl).1,
    (h.2.2.2.2.2 0 [0, 0, 0, 42] rfl).2⟩

/-- Claim C7: whenever `prepare` succeeds, the returned `Statement` carries the
chosen name (`""` for `Uncached`, the synthesized prefix-plus-counter name
for `Cached`) and a parameter-format list equal to
`vec![1; param_types.len()]`: length equal to the declared parameter count,
every entry the binary marker 1. -/
theorem prepare_success_formats
    (conn : RawConnection) (sql : String) (dir : PrepareForCache)
    (types : List PgTypeMetadata) (st : Statement)
    (h : (Statement.prepare conn sql dir types).2 = .ok st) :
    st.name = (queryName dir).getD "" ∧
    st.param_formats = List.replicate types.length 1 ∧
    st.param_formats.length = types.length ∧
    ∀ f ∈ st.param_formats, f = 1 := by
  obtain ⟨h1, h2⟩ := prepare_ok_inv h
  refine ⟨h1, h2, by rw [h2]; simp, ?_⟩
  rw [h2]; intro f hf
  exact List.eq_of_mem_replicate hf

/-- Claim C7 witness: a successful cached prepare with no declared parameters. -/
theorem prepare_success_formats_witness :
    (Statement.mk ("__diesel_stmt_" ++ natDecimal 0) []).name =
      (queryName (.yes 0)).getD "" ∧
    (Statement.mk ("__diesel_stmt_" ++ natDecimal 0) []).param_formats =
      List.replicate 0 1 ∧
    (Statement.mk ("__diesel_stmt_" ++ natDecimal 0)
      []).param_formats.length = 0 := by
  have h := prepare_success_formats connOk "SELECT 1" (.yes 0) []
    ⟨"__diesel_stmt_" ++ natDecimal 0, []⟩
    (by rw [prepare_yes_connOk "SELECT 1" 0 (by decide)])
  exact ⟨h.1, h.2.1, h.2.2.1⟩

/-- Claim C8: if converting the parameter count or any present parameter's byte
length to the native `c_int` width would overflow, `execute` returns a
`SerializationError` as a typed value, with an empty native-call trace (no
native call issued) and no panic. -/
theorem execute_overflow_serialization_error
    (s : Statement) (conn : RawConnection) (pd : List (Option (List Nat)))
    (rbr : Bool)
    (hover : cIntMax < pd.length ∨
      ∃ b : List Nat, some b ∈ pd ∧ cIntMax < b.length) :
    s.execute conn pd rbr = ([], .error .serializationError) := by
  rcases hover with hcnt | ⟨b, hb, hbl⟩
  · rcases hl : param_lengths pd with _ | lens
    · unfold Statement.execute; rw [hl]
    · unfold Statement.execute; rw [hl]
      have hnone : tryIntoCInt (params_pointer pd).length = none := by
        rw [params_pointer_eq]; simp [tryIntoCInt]; omega
      rw [hnone]
  · unfold Statement.execute
    rw [param_lengths_none_of_over hb hbl]

/-- Claim C8 witness: a single parameter of `i32::MAX + 1` bytes overflows the
`c_int` length conversion; the typed serialization error comes back and the
native-call trace is empty. -/
theorem execute_overflow_serialization_error_witness :
    Statement.execute ⟨"q", [1]⟩ connOk
      [some (List.replicate (cIntMax + 1) 0)] false =
      ([], .error .serializationError) :=
  execute_overflow_serialization_error ⟨"q", [1]⟩ connOk
    [some (List.replicate (cIntMax + 1) 0)] false
    (Or.inr ⟨List.replicate (cIntMax + 1) 0, by simp, by simp⟩)

/-- Claim C9: `prepare` validates before any native call: a SQL text with an
embedded NUL byte yields `InvalidCString` with an empty native-call trace;
a parameter type whose oid lookup fails yields `SerializationError` with an
empty trace; and the synthesized statement name (fixed prefix plus decimal
counter) never contains a NUL byte, so the name check never fires. -/
theorem prepare_validation_errors :
    (∀ (conn : RawConnection) (sql : String) (dir : PrepareForCache)
      (types : List PgTypeMetadata), containsNulByte sql = true →
      Statement.prepare conn sql dir types = ([], .error .invalidCString)) ∧
    (∀ (conn : RawConnection) (sql : String) (dir : PrepareForCache)
      (types : List PgTypeMetadata), containsNulByte sql = false →
      (∃ t ∈ types, t.oid = none) →
      Statement.prepare conn sql dir types =
        ([], .error .serializationError)) ∧
    (∀ c : Nat, containsNulByte ("__diesel_stmt_" ++ natDecimal c) = false) := by
  refine ⟨?_, ?_, containsNulByte_name⟩
  · intro conn sql dir types h
    unfold Statement.prepare
    rw [queryName_cstring_ok]
    rw [show cstringNew sql = .error .invalidCString by simp [cstringNew, h]]
  · intro conn sql dir types h hoid
    unfold Statement.prepare
    rw [queryName_cstring_ok, cstringNew_of_not_nul h,
      collectOids_none hoid]

/-- Claim C9 witness: a SQL text containing a NUL byte, and a parameter type with a
failed oid lookup, each rejected with the right typed error and no native
call; plus the NUL-freeness of a concrete synthesized name. -/
theorem prepare_validation_errors_witness :
    Statement.prepare connOk "SELECT \x00" (.yes 0) [] =
      ([], .error .invalidCString) ∧
    Statement.prepare connOk "SELECT $1" .no [⟨none⟩] =
      ([], .error .serializationError) ∧
    containsNulByte ("__diesel_stmt_" ++ natDecimal 0) = false :=
  ⟨prepare_validation_errors.1 connOk "SELECT \x00" (.yes 0) [] (by decide),
   prepare_validation_errors.2.1 connOk "SELECT $1" .no [⟨none⟩] (by decide)
     ⟨⟨none⟩, by simp, rfl⟩,
   prepare_validation_errors.2.2 0⟩

/-- Claim C10: the `.expect("Is never none")` after the result fetch is an abort,
not a user-facing error or a default value: when the dispatch succeeded and
`get_next_result` returns `Ok(None)`, `execute` panics; and under the
guarantee that a successful dispatch always makes a result handle retrievable
(the fetch never returns `Ok(None)`), the abort branch is unreachable — no
execution panics. -/
theorem execute_missing_result_aborts :
    (∀ (s : Statement) (conn : RawConnection)
      (pd : List (Option (List Nat))) (rbr : Bool),
      conn.getNextResultOutcome ≠ some none →
      (s.execute conn pd rbr).2 ≠ .panicked) ∧
    (∀ (s : Statement) (conn : RawConnection)
      (pd : List (Option (List Nat))) (rbr : Bool),
      (∀ b : List Nat, some b ∈ pd → b.length ≤ cIntMax) →
      pd.length ≤ cIntMax →
      conn.sendQueryPreparedOk = true →
      conn.enableRowByRowOk = true →
      conn.getNextResultOutcome = some none →
      (s.execute conn pd rbr).2 = .panicked) := by
  constructor
  · intro s conn pd rbr hg
    rcases execute_snd_cases s conn pd rbr with h | h | ⟨r, _, h⟩ | ⟨hgn, h⟩
    · rw [h]; simp
    · rw [h]; simp
    · rw [h]; simp
    · exact absurd hgn hg
  · intro s conn pd rbr hfit hcnt hsend hrow hg
    exact execute_snd_panicked hfit hcnt hsend hrow hg

/-- Claim C10 witness: on a connection whose fetch yields a handle, `execute` does
not panic; on one whose successful dispatch is followed by `Ok(None)`, it
does. -/
theorem execute_missing_result_aborts_witness :
    (Statement.execute ⟨"q", []⟩ connOk [] false).2 ≠ .panicked ∧
    (Statement.execute ⟨"q", []⟩ connNoResult [] false).2 = .panicked :=
  ⟨execute_missing_result_aborts.1 ⟨"q", []⟩ connOk [] false (by decide),
   execute_missing_result_aborts.2 ⟨"q", []⟩ connNoResult [] false
     (by intro b hb; simp at hb) (by decide) (by decide) (by decide)
     (by decide)⟩

end DieselPgStmt
